import Mathlib

set_option linter.unusedVariables false
set_option linter.unnecessarySeqFocus false

/-- Structured description of an image, as produced by the external vision
classifier. Shallow embedding of the TypeScript interface AIAnalysis in
src/lib/squatch.ts, lines 6-22. Every field is optional there, so each is an
Option here; JavaScript numbers are embedded as rationals. -/
structure AIAnalysis where
  environment : Option String := none
  blurry : Option ℚ := none
  humanoid : Option Bool := none
  humanoidSquatchLike : Option Bool := none
  wearingClothes : Option Bool := none
  hairyOrFurry : Option Bool := none
  knownPrimate : Option Bool := none
  primateType : Option String := none
  animal : Option Bool := none
  animalType : Option String := none
  lighting : Option String := none
  objectsDetected : Option (List String) := none
  creatureConfidence : Option ℚ := none
  description : Option String := none
  dadProfileMatch : Option Bool := none
deriving DecidableEq, Repr

/-- Output record of the engine: embedding of the TypeScript interface
SquatchReport in src/lib/squatch.ts, lines 24-29. -/
structure SquatchReport where
  score : Int
  conclusion : String
  easterEgg : Option String := none
  dadSquatch : Option Bool := none
deriving DecidableEq, Repr

/-- Embedding of the JavaScript idiom (s or the empty string when absent)
followed by toLowerCase, as in src/lib/squatch.ts lines 56-60. Lower-cased
strings are represented as character lists so that every operation below is
structural recursion. -/
def jsLower (s : Option String) : List Char :=
  (s.getD "").toList.map Char.toLower

/-- Embedding of JavaScript String.prototype.includes: substring test. -/
def jsIncludes : List Char → List Char → Bool
  | [], pat => pat.isEmpty
  | c :: tl, pat => pat.isPrefixOf (c :: tl) || jsIncludes tl pat

/-- Embedding of JavaScript Math.round: round half toward positive
infinity. -/
def jsRound (q : ℚ) : Int := ⌊q + 1/2⌋

/-- The primate-vocabulary substring match on primateType, from
src/lib/squatch.ts lines 70-77. -/
def isKnownPrimateType (data : AIAnalysis) : Bool :=
  jsIncludes (jsLower data.primateType) "orangutan".toList ||
  jsIncludes (jsLower data.primateType) "gorilla".toList ||
  jsIncludes (jsLower data.primateType) "chimpanzee".toList ||
  jsIncludes (jsLower data.primateType) "chimp".toList ||
  jsIncludes (jsLower data.primateType) "monkey".toList ||
  jsIncludes (jsLower data.primateType) "gibbon".toList ||
  jsIncludes (jsLower data.primateType) "baboon".toList

/-- The known-primate flag penalty, from src/lib/squatch.ts lines 63-68:
minus 70 for a clear photo, minus 50 for a blurry one, 0 when the flag is not
set. -/
def knownPrimatePenalty (data : AIAnalysis) : Int :=
  if data.knownPrimate.getD false then
    if data.blurry.getD 0 < 4 then -70 else -50
  else 0

/-- The primate-label penalty, from src/lib/squatch.ts lines 78-81: applies
only when the vocabulary matches and the knownPrimate flag is NOT set. -/
def primateTypePenalty (data : AIAnalysis) : Int :=
  if isKnownPrimateType data && !(data.knownPrimate.getD false) then
    if data.blurry.getD 0 < 4 then -65 else -45
  else 0

/-- The accumulated score of calculateSquatchScore before clamping,
src/lib/squatch.ts lines 53-112. The source mutates a local accumulator
through a sequence of independent conditional additions; here the same
contributions are written as one sum, in source order. -/
def squatchRawScore (data : AIAnalysis) : Int :=
  (10 : Int)
  + knownPrimatePenalty data
  + primateTypePenalty data
  + (if jsIncludes (jsLower data.environment) "forest".toList
        || jsIncludes (jsLower data.environment) "woods".toList then 15 else 0)
  + (if jsIncludes (jsLower data.environment) "indoor".toList
        || jsIncludes (jsLower data.environment) "inside".toList then -40 else 0)
  + (if data.wearingClothes.getD false then -50 else 0)
  + (if !(data.knownPrimate.getD false) && !(isKnownPrimateType data) then
       (if data.humanoidSquatchLike.getD false then 45 else 0)
       + (if data.hairyOrFurry.getD false && data.humanoid.getD false then 35 else 0)
       + (if data.humanoid.getD false && !(data.wearingClothes.getD false)
             && !(data.humanoidSquatchLike.getD false) && !(data.hairyOrFurry.getD false)
          then 15 else 0)
     else 0)
  + (if data.blurry.getD 0 > 7 then 20 else 0)
  + (if data.blurry.getD 0 < 3 ∧ jsIncludes (jsLower data.lighting) "bright".toList
     then -15 else 0)
  + (if data.animal.getD false then 10 else 0)
  + (if jsIncludes (jsLower data.animalType) "bear".toList then 8 else 0)
  + (if jsIncludes (jsLower data.lighting) "bright".toList
        || jsIncludes (jsLower data.lighting) "well-lit".toList then -10 else 0)
  + (match data.creatureConfidence with
     | some c => jsRound (c * 15)
     | none => 0)

/-- calculateSquatchScore, src/lib/squatch.ts lines 53-115: the accumulated
score clamped to the interval from 0 to 100 on return (line 114). -/
def calculateSquatchScore (data : AIAnalysis) : Int :=
  max 0 (min 100 (squatchRawScore data))

/-- generateConclusion, src/lib/squatch.ts lines 120-126. -/
def generateConclusion (score : Int) : String :=
  if score > 80 then "Highly probable Squatch encounter"
  else if score > 60 then "Suspiciously Squatchy"
  else if score > 40 then "Inconclusive – classic blurry evidence"
  else if score > 20 then "Probably not a Squatch"
  else "Definitely not a Squatch"

/-- generateSquatchReport, src/lib/squatch.ts lines 131-142. -/
def generateSquatchReport (aiAnalysis : AIAnalysis) : SquatchReport :=
  if aiAnalysis.dadProfileMatch.getD false then
    { score := 100
      conclusion := "Definitely a squatch, no explanation needed."
      dadSquatch := some true }
  else
    { score := calculateSquatchScore aiAnalysis
      conclusion := generateConclusion (calculateSquatchScore aiAnalysis) }

/-- The three-backtick character list. The regex in
src/app/api/analyze/route.ts line 144 removes every occurrence of a json
code fence opener (with an optional trailing newline) or a fence closer
(with an optional leading newline). -/
def fence : List Char := Char.ofNat 96 :: Char.ofNat 96 :: Char.ofNat 96 :: []

/-- Fence opener followed by json and a newline: the first regex alternative
with its optional newline present. -/
def fenceJsonNl : List Char := fence ++ ('j' :: 's' :: 'o' :: 'n' :: '\n' :: [])

/-- Fence opener followed by json, no newline: the first regex alternative
with the optional newline absent. -/
def fenceJson : List Char := fence ++ ('j' :: 's' :: 'o' :: 'n' :: [])

/-- Newline followed by a fence: the second regex alternative with its
optional newline present. -/
def nlFence : List Char := '\n' :: fence

/-- Embedding of the global regex replacement on line 144 of
src/app/api/analyze/route.ts: scan left to right, and at each position try
the regex alternatives in backtracking order (fence-json with newline,
fence-json without, newline-fence, bare fence); a match is deleted and the
scan resumes after it. -/
def stripFences : List Char → List Char
  | [] => []
  | c :: tl =>
    if fenceJsonNl.isPrefixOf (c :: tl) then stripFences ((c :: tl).drop 8)
    else if fenceJson.isPrefixOf (c :: tl) then stripFences ((c :: tl).drop 7)
    else if nlFence.isPrefixOf (c :: tl) then stripFences ((c :: tl).drop 4)
    else if fence.isPrefixOf (c :: tl) then stripFences ((c :: tl).drop 3)
    else c :: stripFences tl
termination_by l => l.length
decreasing_by all_goals (simp [List.length_drop]; try omega)

/-- Embedding of JavaScript String.prototype.trim: drop whitespace from both
ends. -/
def trimChars (l : List Char) : List Char :=
  ((l.dropWhile Char.isWhitespace).reverse.dropWhile Char.isWhitespace).reverse

/-- parseAIResponse, src/app/api/analyze/route.ts lines 143-150. The call to
the JavaScript JSON.parse library routine (together with the cast of its
result to AIAnalysis) is external to the repository, so it is taken as a
parameter jsonParse; returning none stands for JSON.parse throwing, which
the source catches by substituting the empty record. -/
def parseAIResponse (jsonParse : String → Option AIAnalysis) (content : String) : AIAnalysis :=
  match jsonParse (String.mk (trimChars (stripFences content.toList))) with
  | some a => a
  | none => {}

example : calculateSquatchScore {} = 10 := by decide

/-- Clamping to the interval from 0 to 100 is monotone, and strictly monotone
when the larger clamped value lies strictly inside the interval. -/
theorem clampInterval_mono (x y : Int) (h : x < y) :
    max 0 (min 100 x) ≤ max 0 (min 100 y) ∧
    (0 < max 0 (min 100 y) → max 0 (min 100 y) < 100 →
      max 0 (min 100 x) < max 0 (min 100 y)) := by omega

/-- C1: for every AnalysisRecord input, over all optional-field combinations
and arbitrary rational blurry and creatureConfidence values,
calculateSquatchScore returns an integer in the closed range from 0 to 100
(integrality is the codomain Int of the embedded function). -/
theorem calculateSquatchScore_bounded (data : AIAnalysis) :
    0 ≤ calculateSquatchScore data ∧ calculateSquatchScore data ≤ 100 := by
  unfold calculateSquatchScore
  omega

/-- C2: generateConclusion is a pure threshold lookup with boundaries
exclusive on the lower side of each bracket, and in particular sends 20 to
the lowest bracket, 21 to the next, and 81 to the highest. -/
theorem generateConclusion_brackets (s : Int) :
    (80 < s → generateConclusion s = "Highly probable Squatch encounter") ∧
    (60 < s → s ≤ 80 → generateConclusion s = "Suspiciously Squatchy") ∧
    (40 < s → s ≤ 60 → generateConclusion s = "Inconclusive – classic blurry evidence") ∧
    (20 < s → s ≤ 40 → generateConclusion s = "Probably not a Squatch") ∧
    (s ≤ 20 → generateConclusion s = "Definitely not a Squatch") ∧
    generateConclusion 20 = "Definitely not a Squatch" ∧
    generateConclusion 21 = "Probably not a Squatch" ∧
    generateConclusion 81 = "Highly probable Squatch encounter" := by
  refine ⟨?_, ?_, ?_, ?_, ?_, by decide, by decide, by decide⟩ <;>
    (intros; unfold generateConclusion; split_ifs <;> first | rfl | omega)

/-- Witness for C2: the bracket theorem applied at one concrete score inside
each bracket, with every hypothesis discharged numerically. -/
theorem generateConclusion_brackets_check :
    generateConclusion 100 = "Highly probable Squatch encounter" ∧
    generateConclusion 80 = "Suspiciously Squatchy" ∧
    generateConclusion 60 = "Inconclusive – classic blurry evidence" ∧
    generateConclusion 40 = "Probably not a Squatch" ∧
    generateConclusion 20 = "Definitely not a Squatch" :=
  ⟨(generateConclusion_brackets 100).1 (by norm_num),
   (generateConclusion_brackets 80).2.1 (by norm_num) (by norm_num),
   (generateConclusion_brackets 60).2.2.1 (by norm_num) (by norm_num),
   (generateConclusion_brackets 40).2.2.2.1 (by norm_num) (by norm_num),
   (generateConclusion_brackets 20).2.2.2.2.1 (by norm_num)⟩

/-- C3: any record whose dadProfileMatch flag is set produces exactly the
fixed override report, with score 100, the fixed conclusion, and the
dadSquatch flag set, regardless of every other field. -/
theorem generateSquatchReport_override (a : AIAnalysis)
    (h : a.dadProfileMatch.getD false = true) :
    generateSquatchReport a =
      { score := 100, conclusion := "Definitely a squatch, no explanation needed.",
        easterEgg := none, dadSquatch := some true } := by
  unfold generateSquatchReport
  rw [h]
  rfl

/-- Witness for C3: the override theorem applied to the record that sets
only dadProfileMatch. -/
theorem generateSquatchReport_override_check :
    generateSquatchReport { dadProfileMatch := some true } =
      { score := 100, conclusion := "Definitely a squatch, no explanation needed.",
        easterEgg := none, dadSquatch := some true } :=
  generateSquatchReport_override { dadProfileMatch := some true } rfl

/-- C10: parseAIResponse never propagates a parse failure; whenever JSON
parsing of the fence-stripped, trimmed input fails, it returns the empty
analysis record, and that record scores the baseline 10 with the lowest
verdict. -/
theorem parseAIResponse_fallback (jsonParse : String → Option AIAnalysis)
    (content : String)
    (h : jsonParse (String.mk (trimChars (stripFences content.toList))) = none) :
    parseAIResponse jsonParse content = ({} : AIAnalysis) ∧
    generateSquatchReport (parseAIResponse jsonParse content) =
      { score := 10, conclusion := "Definitely not a Squatch" } := by
  have h1 : parseAIResponse jsonParse content = ({} : AIAnalysis) := by
    unfold parseAIResponse
    rw [h]
  exact ⟨h1, by rw [h1]; decide⟩

/-- Witness for C10: the fallback theorem applied to a parser that always
fails on an arbitrary input string. -/
theorem parseAIResponse_fallback_check :
    parseAIResponse (fun _ => none) "this is not json" = ({} : AIAnalysis) ∧
    generateSquatchReport (parseAIResponse (fun _ => none) "this is not json") =
      { score := 10, conclusion := "Definitely not a Squatch" } :=
  parseAIResponse_fallback (fun _ => none) "this is not json" rfl

/-- Counterexample for C4: the override record and a maxed-out ordinary
record both carry score 100, yet their verdict strings differ, and the
override verdict is none of the five bracket strings. -/
theorem report_verdict_not_five_cex :
    (generateSquatchReport { dadProfileMatch := some true }).score =
      (generateSquatchReport
        { environment := some "forest", blurry := some 8, humanoid := some true,
          humanoidSquatchLike := some true, hairyOrFurry := some true,
          animal := some true, animalType := some "bear" }).score ∧
    (generateSquatchReport { dadProfileMatch := some true }).conclusion ≠
      (generateSquatchReport
        { environment := some "forest", blurry := some 8, humanoid := some true,
          humanoidSquatchLike := some true, hairyOrFurry := some true,
          animal := some true, animalType := some "bear" }).conclusion ∧
    (generateSquatchReport { dadProfileMatch := some true }).conclusion ≠
      "Highly probable Squatch encounter" ∧
    (generateSquatchReport { dadProfileMatch := some true }).conclusion ≠
      "Suspiciously Squatchy" ∧
    (generateSquatchReport { dadProfileMatch := some true }).conclusion ≠
      "Inconclusive – classic blurry evidence" ∧
    (generateSquatchReport { dadProfileMatch := some true }).conclusion ≠
      "Probably not a Squatch" ∧
    (generateSquatchReport { dadProfileMatch := some true }).conclusion ≠
      "Definitely not a Squatch" := by
  decide

/-- C4 as amended: restricted to records that do not trigger the
dadProfileMatch override, the verdict is one of the five fixed bracket
strings, equals generateConclusion of the report's score, and so any two
non-override inputs whose reports carry the same score receive the same
verdict; override records all receive the fixed sixth string. -/
theorem report_verdict_of_score (a b : AIAnalysis)
    (ha : a.dadProfileMatch.getD false = false)
    (hb : b.dadProfileMatch.getD false = false) :
    ((generateSquatchReport a).conclusion = "Highly probable Squatch encounter" ∨
     (generateSquatchReport a).conclusion = "Suspiciously Squatchy" ∨
     (generateSquatchReport a).conclusion = "Inconclusive – classic blurry evidence" ∨
     (generateSquatchReport a).conclusion = "Probably not a Squatch" ∨
     (generateSquatchReport a).conclusion = "Definitely not a Squatch") ∧
    (generateSquatchReport a).conclusion =
      generateConclusion (generateSquatchReport a).score ∧
    ((generateSquatchReport a).score = (generateSquatchReport b).score →
      (generateSquatchReport a).conclusion = (generateSquatchReport b).conclusion) := by
  have hga : generateSquatchReport a =
      { score := calculateSquatchScore a,
        conclusion := generateConclusion (calculateSquatchScore a) } := by
    unfold generateSquatchReport
    rw [ha]
    rfl
  have hgb : generateSquatchReport b =
      { score := calculateSquatchScore b,
        conclusion := generateConclusion (calculateSquatchScore b) } := by
    unfold generateSquatchReport
    rw [hb]
    rfl
  rw [hga, hgb]
  refine ⟨?_, rfl, fun h => by rw [show calculateSquatchScore a = calculateSquatchScore b from h]⟩
  unfold generateConclusion
  split_ifs <;> simp

/-- Witness for C4 as amended: the theorem applied to two concrete
non-override records. -/
theorem report_verdict_of_score_check :
    (generateSquatchReport ({} : AIAnalysis)).conclusion =
      generateConclusion (generateSquatchReport ({} : AIAnalysis)).score ∧
    ((generateSquatchReport ({} : AIAnalysis)).score =
        (generateSquatchReport { description := some "tree" }).score →
      (generateSquatchReport ({} : AIAnalysis)).conclusion =
        (generateSquatchReport { description := some "tree" }).conclusion) :=
  ⟨(report_verdict_of_score {} { description := some "tree" } rfl rfl).2.1,
   (report_verdict_of_score {} { description := some "tree" } rfl rfl).2.2⟩

/-- Counterexample for C7: on a concrete record with the knownPrimate flag
set and a vocabulary-matching label, only the flag penalty fires, and in
general the two penalty terms can never both be nonzero, because the label
penalty is guarded by the negation of the knownPrimate flag. -/
theorem primate_penalty_overlap_cex :
    (knownPrimatePenalty
        { knownPrimate := some true, primateType := some "gorilla",
          blurry := some 8, environment := some "forest", animal := some true } = -50 ∧
     primateTypePenalty
        { knownPrimate := some true, primateType := some "gorilla",
          blurry := some 8, environment := some "forest", animal := some true } = 0 ∧
     calculateSquatchScore
        { knownPrimate := some true, primateType := some "gorilla",
          blurry := some 8, environment := some "forest", animal := some true } = 5) ∧
    ¬ ∃ r : AIAnalysis, r.knownPrimate.getD false = true ∧
        isKnownPrimateType r = true ∧
        knownPrimatePenalty r ≠ 0 ∧ primateTypePenalty r ≠ 0 := by
  refine ⟨by decide, ?_⟩
  rintro ⟨r, hk, -, -, hp⟩
  apply hp
  simp [primateTypePenalty, hk]

/-- C7 as amended: the two known-primate penalty computations are mutually
exclusive additive terms, not cumulative: when the knownPrimate flag is set
only the flag penalty of minus 70 or minus 50 applies and the label term is
0, and when the flag is not set but the label matches the vocabulary only
the label penalty of minus 65 or minus 45 applies. -/
theorem primate_penalties_exclusive (r : AIAnalysis) :
    (r.knownPrimate.getD false = true →
      knownPrimatePenalty r = (if r.blurry.getD 0 < 4 then -70 else -50) ∧
      primateTypePenalty r = 0) ∧
    (r.knownPrimate.getD false = false → isKnownPrimateType r = true →
      knownPrimatePenalty r = 0 ∧
      primateTypePenalty r = (if r.blurry.getD 0 < 4 then -65 else -45)) := by
  constructor
  · intro hk
    exact ⟨by simp [knownPrimatePenalty, hk], by simp [primateTypePenalty, hk]⟩
  · intro hk hik
    exact ⟨by simp [knownPrimatePenalty, hk], by simp [primateTypePenalty, hk, hik]⟩

/-- Witness for C7 as amended: the exclusivity theorem applied to a concrete
record for each of the two branches. -/
theorem primate_penalties_exclusive_check :
    (knownPrimatePenalty { knownPrimate := some true, primateType := some "gorilla" } = -70 ∧
     primateTypePenalty { knownPrimate := some true, primateType := some "gorilla" } = 0) ∧
    (knownPrimatePenalty { primateType := some "gorilla" } = 0 ∧
     primateTypePenalty { primateType := some "gorilla" } = -65) := by
  have h1 := (primate_penalties_exclusive
    { knownPrimate := some true, primateType := some "gorilla" }).1 rfl
  have h2 := (primate_penalties_exclusive { primateType := some "gorilla" }).2 rfl (by decide)
  norm_num [Option.getD] at h1 h2
  exact ⟨h1, h2⟩

/-- C8: when the suppression gate holds, because the knownPrimate flag is
set or the primate label matches the vocabulary, the humanoid-signal bonuses
are skipped entirely: two records satisfying the gate that agree on every
field other than humanoid, humanoidSquatchLike and hairyOrFurry receive the
same score. -/
theorem suppressed_humanoid_no_effect (a b : AIAnalysis)
    (hg : a.knownPrimate.getD false = true ∨ isKnownPrimateType a = true)
    (henv : a.environment = b.environment) (hblur : a.blurry = b.blurry)
    (hwear : a.wearingClothes = b.wearingClothes)
    (hkp : a.knownPrimate = b.knownPrimate) (hpt : a.primateType = b.primateType)
    (hani : a.animal = b.animal) (hat : a.animalType = b.animalType)
    (hlight : a.lighting = b.lighting) (hobj : a.objectsDetected = b.objectsDetected)
    (hconf : a.creatureConfidence = b.creatureConfidence)
    (hdesc : a.description = b.description) (hdad : a.dadProfileMatch = b.dadProfileMatch) :
    calculateSquatchScore a = calculateSquatchScore b := by
  have hik : isKnownPrimateType a = isKnownPrimateType b := by
    unfold isKnownPrimateType
    rw [hpt]
  have hkpp : knownPrimatePenalty a = knownPrimatePenalty b := by
    unfold knownPrimatePenalty
    rw [hkp, hblur]
  have hptp : primateTypePenalty a = primateTypePenalty b := by
    unfold primateTypePenalty
    rw [hik, hkp, hblur]
  unfold calculateSquatchScore squatchRawScore
  rw [hkpp, hptp, henv, hblur, hwear, hlight, hani, hat, hconf, hik, hkp]
  rcases hg with h | h
  · rw [hkp] at h
    simp [h]
  · rw [hik] at h
    simp [h]

/-- Witness for C8: the suppression theorem applied to two concrete gated
records, one with every humanoid signal set and one with none. -/
theorem suppressed_humanoid_no_effect_check :
    calculateSquatchScore
      { knownPrimate := some true, humanoid := some true,
        humanoidSquatchLike := some true, hairyOrFurry := some true } =
    calculateSquatchScore { knownPrimate := some true } :=
  suppressed_humanoid_no_effect
    { knownPrimate := some true, humanoid := some true,
      humanoidSquatchLike := some true, hairyOrFurry := some true }
    { knownPrimate := some true }
    (Or.inl rfl) rfl rfl rfl rfl rfl rfl rfl rfl rfl rfl rfl rfl

/-- C9: the description and objectsDetected fields never influence the
result: two records that agree on every other field receive equal scores
and identical reports. -/
theorem passthrough_fields_no_effect (a b : AIAnalysis)
    (henv : a.environment = b.environment) (hblur : a.blurry = b.blurry)
    (hhum : a.humanoid = b.humanoid) (hsq : a.humanoidSquatchLike = b.humanoidSquatchLike)
    (hwear : a.wearingClothes = b.wearingClothes) (hhair : a.hairyOrFurry = b.hairyOrFurry)
    (hkp : a.knownPrimate = b.knownPrimate) (hpt : a.primateType = b.primateType)
    (hani : a.animal = b.animal) (hat : a.animalType = b.animalType)
    (hlight : a.lighting = b.lighting) (hconf : a.creatureConfidence = b.creatureConfidence)
    (hdad : a.dadProfileMatch = b.dadProfileMatch) :
    calculateSquatchScore a = calculateSquatchScore b ∧
    generateSquatchReport a = generateSquatchReport b := by
  have hik : isKnownPrimateType a = isKnownPrimateType b := by
    unfold isKnownPrimateType
    rw [hpt]
  have hkpp : knownPrimatePenalty a = knownPrimatePenalty b := by
    unfold knownPrimatePenalty
    rw [hkp, hblur]
  have hptp : primateTypePenalty a = primateTypePenalty b := by
    unfold primateTypePenalty
    rw [hik, hkp, hblur]
  have hcs : calculateSquatchScore a = calculateSquatchScore b := by
    unfold calculateSquatchScore squatchRawScore
    rw [hkpp, hptp, henv, hblur, hwear, hkp, hik, hsq, hhair, hhum, hlight,
      hani, hat, hconf]
  refine ⟨hcs, ?_⟩
  unfold generateSquatchReport
  rw [hdad, hcs]

/-- Witness for C9: the pass-through theorem applied to a record carrying a
description and detected objects, against the empty record. -/
theorem passthrough_fields_no_effect_check :
    calculateSquatchScore
      { description := some "suspicious tree",
        objectsDetected := some ("tree" :: "rock" :: []) } =
      calculateSquatchScore {} ∧
    generateSquatchReport
      { description := some "suspicious tree",
        objectsDetected := some ("tree" :: "rock" :: []) } =
      generateSquatchReport {} :=
  passthrough_fields_no_effect
    { description := some "suspicious tree",
      objectsDetected := some ("tree" :: "rock" :: []) }
    {} rfl rfl rfl rfl rfl rfl rfl rfl rfl rfl rfl rfl rfl

/-- Counterexample for C5: with only the knownPrimate flag set, the blur-2
variant and the blur-8 variant both clamp to 0, so the blur-2 score is not
strictly lower. -/
theorem knownPrimate_blur_cex :
    calculateSquatchScore { knownPrimate := some true, blurry := some 2 } = 0 ∧
    calculateSquatchScore { knownPrimate := some true, blurry := some 8 } = 0 ∧
    ¬ (calculateSquatchScore { knownPrimate := some true, blurry := some 2 } <
       calculateSquatchScore { knownPrimate := some true, blurry := some 8 }) := by
  decide

/-- Before clamping, a known-primate record at blur 2 always scores strictly
below the same record at blur 8. -/
theorem raw_blur_lt (a : AIAnalysis) (h : a.knownPrimate.getD false = true) :
    squatchRawScore { a with blurry := some 2 } <
      squatchRawScore { a with blurry := some 8 } := by
  have e1 : isKnownPrimateType { a with blurry := some 2 } = isKnownPrimateType a := rfl
  have e2 : isKnownPrimateType { a with blurry := some 8 } = isKnownPrimateType a := rfl
  unfold squatchRawScore knownPrimatePenalty primateTypePenalty
  rw [e1, e2]
  simp only [h, Option.getD_some]
  norm_num
  cases hL : jsIncludes (jsLower a.lighting) ['b', 'r', 'i', 'g', 'h', 't'] <;>
    simp [hL] <;> linarith

/-- C5 as amended: for every record with the knownPrimate flag set, the
blur-2 variant scores at most the blur-8 variant, and strictly lower
whenever the blur-8 score is not saturated by the clamp at 0 or at 100
(the counterexample shows equality when both variants clamp to 0). -/
theorem knownPrimate_blur_le (a : AIAnalysis) (h : a.knownPrimate.getD false = true) :
    calculateSquatchScore { a with blurry := some 2 } ≤
      calculateSquatchScore { a with blurry := some 8 } ∧
    (0 < calculateSquatchScore { a with blurry := some 8 } →
     calculateSquatchScore { a with blurry := some 8 } < 100 →
     calculateSquatchScore { a with blurry := some 2 } <
       calculateSquatchScore { a with blurry := some 8 }) := by
  unfold calculateSquatchScore
  exact clampInterval_mono _ _ (raw_blur_lt a h)

/-- Witness for C5 as amended: a known-primate record whose blur-8 score is
13, strictly inside the clamp interval, so the strict inequality applies. -/
theorem knownPrimate_blur_le_check :
    calculateSquatchScore
      { knownPrimate := some true, environment := some "forest",
        animal := some true, animalType := some "bear", blurry := some 2 } <
    calculateSquatchScore
      { knownPrimate := some true, environment := some "forest",
        animal := some true, animalType := some "bear", blurry := some 8 } :=
  (knownPrimate_blur_le
    { knownPrimate := some true, environment := some "forest",
      animal := some true, animalType := some "bear" } rfl).2 (by decide) (by decide)

/-- Counterexample for C6: in a forest record that also carries the
knownPrimate flag, the clothed variant and the squatch-like variant both
clamp to 0, so the clothed variant does not score strictly lower. -/
theorem forest_clothes_cex :
    calculateSquatchScore
      { environment := some "forest", knownPrimate := some true,
        wearingClothes := some true } = 0 ∧
    calculateSquatchScore
      { environment := some "forest", knownPrimate := some true,
        humanoidSquatchLike := some true } = 0 ∧
    ¬ (calculateSquatchScore
        { environment := some "forest", knownPrimate := some true,
          wearingClothes := some true } <
       calculateSquatchScore
        { environment := some "forest", knownPrimate := some true,
          humanoidSquatchLike := some true }) := by
  decide

/-- Before clamping, the clothed non-squatch-like variant of any record
always scores strictly below the unclothed squatch-like variant. -/
theorem raw_clothes_lt (a : AIAnalysis) (sA cB : Option Bool)
    (hsA : sA.getD false = false) (hcB : cB.getD false = false) :
    squatchRawScore { a with wearingClothes := some true, humanoidSquatchLike := sA } <
    squatchRawScore { a with humanoidSquatchLike := some true, wearingClothes := cB } := by
  have e1 : isKnownPrimateType { a with wearingClothes := some true, humanoidSquatchLike := sA }
      = isKnownPrimateType a := rfl
  have e2 : isKnownPrimateType { a with humanoidSquatchLike := some true, wearingClothes := cB }
      = isKnownPrimateType a := rfl
  have e3 : knownPrimatePenalty { a with wearingClothes := some true, humanoidSquatchLike := sA }
      = knownPrimatePenalty a := rfl
  have e4 : knownPrimatePenalty { a with humanoidSquatchLike := some true, wearingClothes := cB }
      = knownPrimatePenalty a := rfl
  have e5 : primateTypePenalty { a with wearingClothes := some true, humanoidSquatchLike := sA }
      = primateTypePenalty a := rfl
  have e6 : primateTypePenalty { a with humanoidSquatchLike := some true, wearingClothes := cB }
      = primateTypePenalty a := rfl
  unfold squatchRawScore
  rw [e1, e2, e3, e4, e5, e6]
  cases hkp2 : a.knownPrimate.getD false <;> cases hik2 : isKnownPrimateType a <;>
    simp [hkp2, hik2, hsA, hcB] <;> linarith

/-- C6 as amended: for every record whose lower-cased environment contains
forest, the variant with wearingClothes set and humanoidSquatchLike false or
absent scores at most the variant with humanoidSquatchLike set and
wearingClothes false or absent, and strictly lower whenever the latter score
is not saturated by the clamp at 0 or at 100 (the counterexample shows
equality when both variants clamp to 0). -/
theorem forest_clothes_le_squatchlike (a : AIAnalysis) (sA cB : Option Bool)
    (hEnv : jsIncludes (jsLower a.environment) "forest".toList = true)
    (hsA : sA.getD false = false) (hcB : cB.getD false = false) :
    calculateSquatchScore { a with wearingClothes := some true, humanoidSquatchLike := sA } ≤
      calculateSquatchScore { a with humanoidSquatchLike := some true, wearingClothes := cB } ∧
    (0 < calculateSquatchScore { a with humanoidSquatchLike := some true, wearingClothes := cB } →
     calculateSquatchScore { a with humanoidSquatchLike := some true, wearingClothes := cB } < 100 →
     calculateSquatchScore { a with wearingClothes := some true, humanoidSquatchLike := sA } <
       calculateSquatchScore { a with humanoidSquatchLike := some true, wearingClothes := cB }) := by
  unfold calculateSquatchScore
  exact clampInterval_mono _ _ (raw_clothes_lt a sA cB hsA hcB)

/-- Witness for C6 as amended: in a plain forest record the clothed variant
scores 0 and the squatch-like variant scores 70, strictly inside the clamp
interval, so the strict inequality applies. -/
theorem forest_clothes_le_squatchlike_check :
    calculateSquatchScore
      { environment := some "forest", wearingClothes := some true,
        humanoidSquatchLike := none } <
    calculateSquatchScore
      { environment := some "forest", humanoidSquatchLike := some true,
        wearingClothes := none } :=
  (forest_clothes_le_squatchlike { environment := some "forest" } none none
    (by decide) rfl rfl).2 (by decide) (by decide)
